import Mathlib

/-!
Verification of the to-do-watchlist backend (src/backend/src/app.js and
src/backend/src/db.js) against its natural-language specification.

The embedding models the Express request handlers and the dual-backend
data-access layer as pure Lean functions over an explicit database state.
External collaborators are modelled where their documented behaviour decides
an endpoint outcome:
  * the sqlite engine has no NOW() function, so preparing a statement whose
    text uses NOW() fails with an SQLITE_ERROR;
  * MySQL has no RETURNING clause, so such statements fail with
    ER_PARSE_ERROR (the mysql2 driver surfaces the server message, which
    embeds the offending statement text);
  * mysql2 pool.execute returns a result-set header (not a row array) for
    INSERT/UPDATE/DELETE, so `rows.length` is undefined there — modelled as
    `rowCount = none`;
  * bcryptjs is modelled from the spec (section 4.1) as a salted digest that
    verification compares against the plaintext it hashed.
-/

namespace TodoWatchlist

/-- JSON-ish value for dynamically-typed request-body fields
(`req.body.title`, `req.body.completed` in the PUT handler). -/
inductive Json where
  | jnull
  | jbool (b : Bool)
  | jstr (s : String)
  | jnum (n : Int)
  deriving DecidableEq, Repr

/-- JS `String(v)` on a non-undefined value, for the value shapes in `Json`. -/
def jsString : Json → String
  | .jnull => "null"
  | .jbool true => "true"
  | .jbool false => "false"
  | .jstr s => s
  | .jnum n => toString n

/-- The PUT handler computes `String(req.body.title ?? '')`: the nullish
coalescing replaces `null` by the empty string before `String` is applied. -/
def putTitleString : Json → String
  | .jnull => ""
  | j => jsString j

/-- JS whitespace characters relevant to `String.prototype.trim` and to
`Number.parseInt` (leading whitespace is skipped before parsing). -/
def isJsWhitespace (c : Char) : Bool :=
  c == ' ' || c == '\t' || c == '\n' || c == '\r'

/-- JS `String.prototype.trim`: remove whitespace from both ends. -/
def jsTrim (s : String) : String :=
  ⟨((s.data.dropWhile isJsWhitespace).reverse.dropWhile isJsWhitespace).reverse⟩

/-- JS `String.prototype.toLowerCase` (character-wise lowering). -/
def jsToLower (s : String) : String :=
  ⟨s.data.map Char.toLower⟩

/-- Whether the first character list starts with the second. -/
def startsWithChars : List Char → List Char → Bool
  | _, [] => true
  | [], _ :: _ => false
  | a :: as, b :: bs => a == b && startsWithChars as bs

/-- JS `String.prototype.startsWith`. -/
def strStartsWith (s pat : String) : Bool :=
  startsWithChars s.data pat.data

/-- Value of a list of decimal digit characters. -/
def digitsToNat (cs : List Char) : Nat :=
  cs.foldl (fun a c => a * 10 + (c.toNat - 48)) 0

/-- `Number.parseInt(s, 10)`: skip leading whitespace, optional sign, then a
maximal run of decimal digits; `none` models NaN (no digits found). -/
def parseInt10 (s : String) : Option Int :=
  let cs := s.data.dropWhile isJsWhitespace
  let signed : Int × List Char :=
    match cs with
    | '-' :: r => (-1, r)
    | '+' :: r => (1, r)
    | r => (1, r)
  let ds := signed.2.takeWhile (fun c => c.isDigit)
  if ds.isEmpty then none else some (signed.1 * (digitsToNat ds : Int))

/-- Consume an optional leading sign. -/
def parseSign : List Char → Int × List Char
  | '-' :: r => (-1, r)
  | '+' :: r => (1, r)
  | r => (1, r)

/-- Parse the longest numeric-literal prefix of a character list:
`[sign] digits [. digits] [e|E [sign] digits]` (each digit group may be
empty, but the mantissa needs at least one digit; a trailing exponent
marker without digits is not consumed).  Returns the value as an exact
pair `(num, den10)` meaning `num / 10 ^ den10`, plus the unconsumed rest.
This is the strtod-style parse both engines use to read a number out of a
text value. -/
def parseNumeric (cs0 : List Char) : Option (Int × Nat × List Char) :=
  let signed := parseSign cs0
  let intDs := signed.2.takeWhile (fun c => c.isDigit)
  let cs2 := signed.2.dropWhile (fun c => c.isDigit)
  let fracPart : List Char × List Char :=
    match cs2 with
    | '.' :: r => (r.takeWhile (fun c => c.isDigit), r.dropWhile (fun c => c.isDigit))
    | _ => ([], cs2)
  if intDs.isEmpty && fracPart.1.isEmpty then none
  else
    let m : Int := signed.1 * (digitsToNat (intDs ++ fracPart.1) : Int)
    let f : Nat := fracPart.1.length
    let expPart : Int × List Char :=
      match fracPart.2 with
      | c :: r =>
        if c == 'e' || c == 'E' then
          let esigned := parseSign r
          let eDs := esigned.2.takeWhile (fun c => c.isDigit)
          if eDs.isEmpty then (0, fracPart.2)
          else (esigned.1 * (digitsToNat eDs : Int), esigned.2.dropWhile (fun c => c.isDigit))
        else (0, fracPart.2)
      | [] => (0, fracPart.2)
    let e : Int := expPart.1 - (f : Int)
    if e ≥ 0 then some (m * (10 : Int) ^ e.toNat, 0, expPart.2)
    else some (m, (-e).toNat, expPart.2)

/-- MySQL's coercion of a string to a number for comparison with an integer
column: skip leading whitespace, read the longest numeric prefix (the
documented string-to-double conversion, which warns on and ignores trailing
garbage such as in `'1abc'`), and yield 0 when no numeric prefix exists. -/
def mysqlTextToNum (s : String) : Int × Nat :=
  match parseNumeric (s.data.dropWhile isJsWhitespace) with
  | none => (0, 0)
  | some (n, d, _) => (n, d)

/-- SQLite's numeric affinity for a text value compared with an INTEGER
column: the text converts to a number only when the whole string (modulo
surrounding whitespace) is a well-formed numeric literal; otherwise it
stays TEXT and compares unequal to every integer. -/
def sqliteTextToNum (s : String) : Option (Int × Nat) :=
  match parseNumeric (s.data.dropWhile isJsWhitespace) with
  | none => none
  | some (n, d, rest) =>
    if (rest.dropWhile isJsWhitespace).isEmpty then some (n, d) else none

/-- Whether `num / 10 ^ den10` equals the integer id exactly. -/
def ratEqNat (num : Int) (den10 : Nat) (id : Nat) : Bool :=
  num == (id : Int) * (10 : Int) ^ den10

/-- Modelled from the spec: bcryptjs is an external library; per the
Credential Hasher contract (spec section 4.1) a digest is a salted one-way
value and `verify` recomputes with the embedded salt and compares.  The
model keeps the salt and the hashed plaintext so verification is exact. -/
structure Digest where
  salt : Nat
  ofPlain : String
  deriving DecidableEq, Repr

/-- Modelled from the spec: bcrypt.compare recomputes using the salt embedded
in the digest and returns whether the plaintext matches. -/
def comparePassword (plain : String) (d : Digest) : Bool :=
  d.ofPlain == plain

/-- A row of the `users` table (schema from db.js bootstrapDatabase). -/
structure UserRow where
  id : Nat
  name : String
  email : String
  password_hash : Digest
  created_at : Nat
  updated_at : Nat
  deriving DecidableEq, Repr

/-- A row of the `tasks` table (schema from db.js bootstrapDatabase). -/
structure TaskRow where
  id : Nat
  user_id : Nat
  title : String
  completed : Bool
  created_at : Nat
  updated_at : Nat
  deriving DecidableEq, Repr

/-- Store state: the two tables, the AUTO_INCREMENT counters, a counter
modelling bcrypt's per-call random salt, the clock read by SQL NOW(), and
whether the schema has been created (CREATE TABLE IF NOT EXISTS). -/
structure Db where
  users : List UserRow
  tasks : List TaskRow
  nextUserId : Nat := 1
  nextTaskId : Nat := 1
  saltSeed : Nat := 0
  now : Nat := 0
  tablesCreated : Bool := false
  deriving DecidableEq, Repr

/-- The backend chosen once per process in db.js: MySQL when MYSQL_URL is
configured, otherwise the embedded sqlite database. -/
inductive Backend where
  | sqlite
  | mysql
  deriving DecidableEq, Repr

/-- Whether the path task-id string compares equal to the INTEGER `id`
column value under the backend's comparison semantics (`id = ?` with a text
parameter): SQLite numeric affinity on the embedded backend, numeric-prefix
string coercion on MySQL. -/
def sqlIdEq (b : Backend) (s : String) (id : Nat) : Bool :=
  match b with
  | .sqlite =>
    match sqliteTextToNum s with
    | none => false
    | some (n, d) => ratEqNat n d id
  | .mysql =>
    let nd := mysqlTextToNum s
    ratEqNat nd.1 nd.2 id

/-- The SQL statements issued by app.js, one constructor per distinct
statement template, carrying the bound parameters. -/
inductive Stmt where
  | selectUserIdByEmail (email : String)
  | selectUserByEmail (email : String)
  | selectUserForLogin (email : String)
  | selectUserById (id : Int)
  | insertUserReturning (name email : String) (hash : Digest)
  | insertUserPlain (name email : String) (hash : Digest)
  | selectTasksByUser (uid : Nat)
  | insertTaskReturning (uid : Nat) (title : String)
  | insertTaskPlain (uid : Nat) (title : String)
  | selectLatestTask (uid : Nat)
  | selectTaskByIdAndUser (taskId : String) (uid : Nat)
  | updateTaskReturning (title : String) (completed : Bool) (taskId : String) (uid : Nat)
  | deleteTask (taskId : String) (uid : Nat)
  deriving DecidableEq, Repr

/-- The statement template text, verbatim from app.js (parameters are bound
separately, as in the source).  db.js dispatches on this text. -/
def stmtText : Stmt → String
  | .selectUserIdByEmail _ => "SELECT id FROM users WHERE email = $1"
  | .selectUserByEmail _ => "SELECT id, name, email FROM users WHERE email = $1"
  | .selectUserForLogin _ => "SELECT id, name, email, password_hash FROM users WHERE email = $1"
  | .selectUserById _ => "SELECT id, name, email FROM users WHERE id = $1"
  | .insertUserReturning _ _ _ => "INSERT INTO users (name, email, password_hash, created_at, updated_at) VALUES ($1, $2, $3, NOW(), NOW()) RETURNING id, name, email"
  | .insertUserPlain _ _ _ => "INSERT INTO users (name, email, password_hash, created_at, updated_at) VALUES ($1, $2, $3, NOW(), NOW())"
  | .selectTasksByUser _ => "SELECT id, user_id, title, completed, created_at, updated_at FROM tasks WHERE user_id = $1 ORDER BY created_at DESC"
  | .insertTaskReturning _ _ => "INSERT INTO tasks (user_id, title, completed, created_at, updated_at) VALUES ($1, $2, FALSE, NOW(), NOW()) RETURNING id, user_id, title, completed, created_at, updated_at"
  | .insertTaskPlain _ _ => "INSERT INTO tasks (user_id, title, completed, created_at, updated_at) VALUES ($1, $2, FALSE, NOW(), NOW())"
  | .selectLatestTask _ => "SELECT id, user_id, title, completed, created_at, updated_at FROM tasks WHERE user_id = $1 ORDER BY id DESC LIMIT 1"
  | .selectTaskByIdAndUser _ _ => "SELECT id, user_id, title, completed, created_at, updated_at FROM tasks WHERE id = $1 AND user_id = $2"
  | .updateTaskReturning _ _ _ _ => "UPDATE tasks SET title = $1, completed = $2, updated_at = NOW() WHERE id = $3 AND user_id = $4 RETURNING id, user_id, title, completed, created_at, updated_at"
  | .deleteTask _ _ => "DELETE FROM tasks WHERE id = $1 AND user_id = $2"

/-- Whether the statement text calls NOW() — a function sqlite does not have,
so preparing such a statement fails on the embedded backend. -/
def usesNow : Stmt → Bool
  | .insertUserReturning _ _ _ => true
  | .insertUserPlain _ _ _ => true
  | .insertTaskReturning _ _ => true
  | .insertTaskPlain _ _ => true
  | .updateTaskReturning _ _ _ _ => true
  | _ => false

/-- Whether the statement text has a RETURNING clause — syntax MySQL rejects
with ER_PARSE_ERROR. -/
def usesReturning : Stmt → Bool
  | .insertUserReturning _ _ _ => true
  | .insertTaskReturning _ _ => true
  | .updateTaskReturning _ _ _ _ => true
  | _ => false

/-- JS error object as the handlers observe it: `message`, the optional
`status` set by ensureUser, and the driver error `code`. -/
structure JsError where
  message : String
  status : Option Nat := none
  code : Option String := none
  deriving DecidableEq, Repr

/-- The sqlite3 driver error for a statement calling the unknown function
NOW(). -/
def sqliteNowError : JsError :=
  { message := "SQLITE_ERROR: no such function: NOW", code := some "SQLITE_ERROR" }

/-- The MySQL server parse error surfaced by mysql2.  Its documented message
format embeds the rejected statement text (the text from the first invalid
token; the model includes the full template). -/
def mysqlParseError (sqlText : String) : JsError :=
  { message := "You have an error in your SQL syntax; check the manual that corresponds to your MySQL server version for the right syntax to use near " ++ sqlText
    code := some "ER_PARSE_ERROR" }

/-- A row as returned by a SELECT. -/
inductive Row where
  | user (u : UserRow)
  | task (t : TaskRow)
  deriving DecidableEq, Repr

/-- Normalized query result from db.js: a row list and a count.  `rowCount`
is `none` when the JS value is `undefined` (MySQL write statements, where
`rows` is a result-set header without a `length`). -/
structure QueryResult where
  rows : List Row
  rowCount : Option Nat
  deriving DecidableEq, Repr

/-- Whether a task row matches the path task id and owner in
`WHERE id = $1 AND user_id = $2`, under the backend's id comparison. -/
def taskIdMatches (b : Backend) (taskId : String) (uid : Nat) (t : TaskRow) : Bool :=
  sqlIdEq b taskId t.id && t.user_id == uid

/-- Insertion (descending `key`) used to model ORDER BY ... DESC. -/
def insertDescBy (key : TaskRow → Nat) (t : TaskRow) : List TaskRow → List TaskRow
  | [] => [t]
  | x :: xs => if key t ≤ key x then x :: insertDescBy key t xs else t :: x :: xs

/-- Sort tasks by a key descending (models ORDER BY ... DESC). -/
def sortTasksDescBy (key : TaskRow → Nat) (ts : List TaskRow) : List TaskRow :=
  ts.foldr (insertDescBy key) []

/-- Rows returned by each SELECT template against the store state. -/
def selectRows (b : Backend) (db : Db) : Stmt → List Row
  | .selectUserIdByEmail e => (db.users.filter (fun u => u.email == e)).map Row.user
  | .selectUserByEmail e => (db.users.filter (fun u => u.email == e)).map Row.user
  | .selectUserForLogin e => (db.users.filter (fun u => u.email == e)).map Row.user
  | .selectUserById i => (db.users.filter (fun u => (u.id : Int) == i)).map Row.user
  | .selectTasksByUser uid =>
      (sortTasksDescBy (fun t => t.created_at) (db.tasks.filter (fun t => t.user_id == uid))).map Row.task
  | .selectLatestTask uid =>
      ((sortTasksDescBy (fun t => t.id) (db.tasks.filter (fun t => t.user_id == uid))).take 1).map Row.task
  | .selectTaskByIdAndUser tid uid =>
      (db.tasks.filter (taskIdMatches b tid uid)).map Row.task
  | _ => []

/-- Effect of a write statement on the store, returning the new state and
the number of affected rows. -/
def writeEffect (b : Backend) (db : Db) : Stmt → Db × Nat
  | .insertUserReturning n e h =>
      let u : UserRow := ⟨db.nextUserId, n, e, h, db.now, db.now⟩
      ({ db with users := db.users ++ [u], nextUserId := db.nextUserId + 1 }, 1)
  | .insertUserPlain n e h =>
      let u : UserRow := ⟨db.nextUserId, n, e, h, db.now, db.now⟩
      ({ db with users := db.users ++ [u], nextUserId := db.nextUserId + 1 }, 1)
  | .insertTaskReturning uid title =>
      let t : TaskRow := ⟨db.nextTaskId, uid, title, false, db.now, db.now⟩
      ({ db with tasks := db.tasks ++ [t], nextTaskId := db.nextTaskId + 1 }, 1)
  | .insertTaskPlain uid title =>
      let t : TaskRow := ⟨db.nextTaskId, uid, title, false, db.now, db.now⟩
      ({ db with tasks := db.tasks ++ [t], nextTaskId := db.nextTaskId + 1 }, 1)
  | .updateTaskReturning title completed tid uid =>
      let n := (db.tasks.filter (taskIdMatches b tid uid)).length
      ({ db with tasks := db.tasks.map (fun t =>
          if taskIdMatches b tid uid t then
            { t with title := title, completed := completed, updated_at := db.now }
          else t) }, n)
  | .deleteTask tid uid =>
      let n := (db.tasks.filter (taskIdMatches b tid uid)).length
      ({ db with tasks := db.tasks.filter (fun t => !taskIdMatches b tid uid t) }, n)
  | _ => (db, 0)

/-- db.js `query`, per backend.
MySQL branch: `pool.execute` after replacing `$n` placeholders by `?`; a
statement with RETURNING is rejected by the server (ER_PARSE_ERROR); for a
SELECT the driver yields the row array and `rowCount = rows.length`; for a
write it yields a result-set header, whose `length` is undefined, so
`rowCount` is `none` (and the handler-visible row list is empty).
sqlite branch: dispatches on the statement text prefix (select / insert /
update / delete); a statement calling NOW() fails to prepare because sqlite
has no such function; `db.all` yields rows with their count; `db.run` yields
`this.changes` as the count and no rows. -/
def query (b : Backend) (db : Db) (s : Stmt) : Except JsError QueryResult × Db :=
  match b with
  | .mysql =>
      if usesReturning s then (.error (mysqlParseError (stmtText s)), db)
      else
        let trimmed := jsToLower (jsTrim (stmtText s))
        if strStartsWith trimmed ("select") then
          let rows := selectRows .mysql db s
          (.ok ⟨rows, some rows.length⟩, db)
        else
          let (db1, _) := writeEffect .mysql db s
          (.ok ⟨[], none⟩, db1)
  | .sqlite =>
      if usesNow s then (.error sqliteNowError, db)
      else
        let trimmed := jsToLower (jsTrim (stmtText s))
        if strStartsWith trimmed ("select") then
          let rows := selectRows .sqlite db s
          (.ok ⟨rows, some rows.length⟩, db)
        else
          let (db1, n) := writeEffect .sqlite db s
          (.ok ⟨[], some n⟩, db1)

/-- The body a handler sends with `res.json(...)` / `res.send()`.  Two equal
`Body` values serialize to byte-identical JSON. -/
inductive Body where
  | empty
  | jsonMessage (message : String)
  | jsonUser (id : Nat) (name email : String)
  | jsonTask (id userId : Nat) (title : String) (completed : Bool) (createdAt updatedAt : Nat)
  | jsonTaskList (tasks : List (Nat × Nat × String × Bool × Nat × Nat))
  deriving DecidableEq, Repr

/-- An HTTP response: status code and body. -/
structure Response where
  status : Nat
  body : Body
  deriving DecidableEq, Repr

/-- Outcome of a handler: the response, the store state after the request,
and the statements that reached the data-access layer, in order. -/
structure HOut where
  resp : Response
  db : Db
  log : List Stmt
  deriving DecidableEq, Repr

/-- app.js `sanitizeUser`: the public subset of a user row. -/
def sanitizeUser (u : UserRow) : Body :=
  .jsonUser u.id u.name u.email

/-- app.js `mapTask`: a task row mapped to its public JSON shape
(`Boolean(row.completed)` is the identity here because the model stores the
flag as a boolean). -/
def mapTask (t : TaskRow) : Body :=
  .jsonTask t.id t.user_id t.title t.completed t.created_at t.updated_at

/-- `mapTask` as the tuple used inside a task list response. -/
def mapTaskTuple (t : TaskRow) : Nat × Nat × String × Bool × Nat × Nat :=
  (t.id, t.user_id, t.title, t.completed, t.created_at, t.updated_at)

/-- app.js `handleError`: status is `error.status || 500`, message is
`error.message || fallbackMessage`. -/
def handleError (e : JsError) (fallbackMessage : String) : Response :=
  ⟨e.status.getD 500, .jsonMessage (if e.message = "" then fallbackMessage else e.message)⟩

/-- app.js `ensureUser`: parse the path user id with `Number.parseInt`;
a NaN result throws a 400 error before any query runs; otherwise look the
user up by id and throw a 404 error when absent. -/
def ensureUser (b : Backend) (db : Db) (userId : String) :
    Except JsError UserRow × Db × List Stmt :=
  match parseInt10 userId with
  | none => (.error { message := "Invalid user id", status := some 400 }, db, [])
  | some id =>
    let s := Stmt.selectUserById id
    match query b db s with
    | (.error e, db1) => (.error e, db1, [s])
    | (.ok r, db1) =>
      match r.rows.head? with
      | some (.user u) => (.ok u, db1, [s])
      | _ => (.error { message := "User not found", status := some 404 }, db1, [s])

/-- Body of POST /api/auth/register; `none` models an absent field. -/
structure RegisterBody where
  name : Option String := none
  email : Option String := none
  password : Option String := none
  deriving DecidableEq, Repr

/-- V8 TypeError message raised when the handler reads a property of
`undefined` (sanitizeUser / mapTask applied to a missing row). -/
def jsUndefinedReadMsg : String :=
  "Cannot read properties of undefined (reading id)"

/-- POST /api/auth/register (app.js lines 82-122): trim the name, normalize
the email to lower case, require all fields and a password of length at
least 6, pre-check the email for duplicates (409), hash the password, then
insert with RETURNING; on the MySQL parse error, fall back to a plain insert
followed by a read-back select by email. -/
def postAuthRegister (b : Backend) (db : Db) (body : RegisterBody) : HOut :=
  let name := jsTrim (body.name.getD "")
  let email := jsToLower (jsTrim (body.email.getD ""))
  let password := body.password.getD ""
  if name = "" || email = "" || password = "" then
    ⟨⟨400, .jsonMessage "Name, email, and password are required"⟩, db, []⟩
  else if password.length < 6 then
    ⟨⟨400, .jsonMessage "Password must be at least 6 characters"⟩, db, []⟩
  else
    let s1 := Stmt.selectUserIdByEmail email
    match query b db s1 with
    | (.error e, db1) => ⟨handleError e ("Failed to register"), db1, [s1]⟩
    | (.ok r1, db1) =>
      if r1.rows.length ≠ 0 then
        ⟨⟨409, .jsonMessage "Email already registered"⟩, db1, [s1]⟩
      else
        let passwordHash : Digest := ⟨db1.saltSeed, password⟩
        let db2 := { db1 with saltSeed := db1.saltSeed + 1 }
        let s2 := Stmt.insertUserReturning name email passwordHash
        match query b db2 s2 with
        | (.ok r2, db3) =>
          match r2.rows.head? with
          | some (.user u) => ⟨⟨201, sanitizeUser u⟩, db3, [s1, s2]⟩
          | _ => ⟨⟨500, .jsonMessage jsUndefinedReadMsg⟩, db3, [s1, s2]⟩
        | (.error e2, db3) =>
          if e2.code == some "ER_PARSE_ERROR" then
            let s3 := Stmt.insertUserPlain name email passwordHash
            match query b db3 s3 with
            | (.error e3, db4) => ⟨handleError e3 ("Failed to register"), db4, [s1, s2, s3]⟩
            | (.ok _, db4) =>
              let s4 := Stmt.selectUserByEmail email
              match query b db4 s4 with
              | (.error e4, db5) => ⟨handleError e4 ("Failed to register"), db5, [s1, s2, s3, s4]⟩
              | (.ok r4, db5) =>
                match r4.rows.head? with
                | some (.user u) => ⟨⟨201, sanitizeUser u⟩, db5, [s1, s2, s3, s4]⟩
                | _ => ⟨⟨500, .jsonMessage jsUndefinedReadMsg⟩, db5, [s1, s2, s3, s4]⟩
          else ⟨handleError e2 ("Failed to register"), db3, [s1, s2]⟩

/-- Body of POST /api/auth/login. -/
structure LoginBody where
  email : Option String := none
  password : Option String := none
  deriving DecidableEq, Repr

/-- POST /api/auth/login (app.js lines 124-148): normalize the email,
require both fields, look the user up by email; an absent user and a failed
password verification both answer 401 with the same generic message. -/
def postAuthLogin (b : Backend) (db : Db) (body : LoginBody) : HOut :=
  let email := jsToLower (jsTrim (body.email.getD ""))
  let password := body.password.getD ""
  if email = "" || password = "" then
    ⟨⟨400, .jsonMessage "Email and password are required"⟩, db, []⟩
  else
    let s := Stmt.selectUserForLogin email
    match query b db s with
    | (.error e, db1) => ⟨handleError e ("Failed to login"), db1, [s]⟩
    | (.ok r, db1) =>
      match r.rows.head? with
      | some (.user u) =>
        if comparePassword password u.password_hash then
          ⟨⟨200, sanitizeUser u⟩, db1, [s]⟩
        else
          ⟨⟨401, .jsonMessage "Invalid credentials"⟩, db1, [s]⟩
      | _ => ⟨⟨401, .jsonMessage "Invalid credentials"⟩, db1, [s]⟩

/-- GET /api/users/:userId/tasks (app.js lines 150-162). -/
def getUserTasks (b : Backend) (db : Db) (userId : String) : HOut :=
  match ensureUser b db userId with
  | (.error e, db1, log) => ⟨handleError e ("Failed to load tasks"), db1, log⟩
  | (.ok u, db1, log) =>
    let s := Stmt.selectTasksByUser u.id
    match query b db1 s with
    | (.error e, db2) => ⟨handleError e ("Failed to load tasks"), db2, log ++ [s]⟩
    | (.ok r, db2) =>
      ⟨⟨200, .jsonTaskList (r.rows.filterMap (fun row =>
          match row with
          | .task t => some (mapTaskTuple t)
          | _ => none))⟩, db2, log ++ [s]⟩

/-- Body of POST /api/users/:userId/tasks. -/
structure CreateTaskBody where
  title : Option String := none
  deriving DecidableEq, Repr

/-- POST /api/users/:userId/tasks (app.js lines 164-194): resolve the user,
require a non-empty trimmed title, insert with RETURNING; on the MySQL parse
error, fall back to a plain insert followed by a read-back of the latest
task of that user. -/
def postUserTasks (b : Backend) (db : Db) (userId : String) (body : CreateTaskBody) : HOut :=
  match ensureUser b db userId with
  | (.error e, db1, log) => ⟨handleError e ("Failed to create task"), db1, log⟩
  | (.ok u, db1, log) =>
    let title := jsTrim (body.title.getD "")
    if title = "" then
      ⟨⟨400, .jsonMessage "Task title is required"⟩, db1, log⟩
    else
      let s1 := Stmt.insertTaskReturning u.id title
      match query b db1 s1 with
      | (.ok r, db2) =>
        match r.rows.head? with
        | some (.task t) => ⟨⟨201, mapTask t⟩, db2, log ++ [s1]⟩
        | _ => ⟨⟨500, .jsonMessage jsUndefinedReadMsg⟩, db2, log ++ [s1]⟩
      | (.error e1, db2) =>
        if e1.code == some "ER_PARSE_ERROR" then
          let s2 := Stmt.insertTaskPlain u.id title
          match query b db2 s2 with
          | (.error e2, db3) => ⟨handleError e2 ("Failed to create task"), db3, log ++ [s1, s2]⟩
          | (.ok _, db3) =>
            let s3 := Stmt.selectLatestTask u.id
            match query b db3 s3 with
            | (.error e3, db4) => ⟨handleError e3 ("Failed to create task"), db4, log ++ [s1, s2, s3]⟩
            | (.ok r3, db4) =>
              match r3.rows.head? with
              | some (.task t) => ⟨⟨201, mapTask t⟩, db4, log ++ [s1, s2, s3]⟩
              | _ => ⟨⟨500, .jsonMessage jsUndefinedReadMsg⟩, db4, log ++ [s1, s2, s3]⟩
        else ⟨handleError e1 ("Failed to create task"), db2, log ++ [s1]⟩

/-- Body of PUT /api/users/:userId/tasks/:taskId; the fields are
dynamically typed in the source (`title` passes through `String(...)`,
`completed` through a `typeof` check). -/
structure UpdateTaskBody where
  title : Option Json := none
  completed : Option Json := none
  deriving DecidableEq, Repr

/-- PUT /api/users/:userId/tasks/:taskId (app.js lines 196-228): resolve the
user, load the task scoped by owner (404 when absent), keep the stored title
when none is supplied (rejecting a supplied title that trims to empty),
use a supplied boolean `completed` and otherwise the stored flag, then issue
the UPDATE ... RETURNING statement. -/
def putUserTask (b : Backend) (db : Db) (userId taskId : String) (body : UpdateTaskBody) : HOut :=
  match ensureUser b db userId with
  | (.error e, db1, log) => ⟨handleError e ("Failed to update task"), db1, log⟩
  | (.ok u, db1, log) =>
    let s1 := Stmt.selectTaskByIdAndUser taskId u.id
    match query b db1 s1 with
    | (.error e1, db2) => ⟨handleError e1 ("Failed to update task"), db2, log ++ [s1]⟩
    | (.ok r1, db2) =>
      match r1.rows.head? with
      | some (.task current) =>
        let hasTitle := body.title.isSome
        let title := if hasTitle then jsTrim (putTitleString (body.title.getD .jnull))
                     else current.title
        if hasTitle && title = "" then
          ⟨⟨400, .jsonMessage "Task title cannot be empty"⟩, db2, log ++ [s1]⟩
        else
          let completed :=
            match body.completed with
            | some (.jbool v) => v
            | _ => current.completed
          let s2 := Stmt.updateTaskReturning title completed taskId u.id
          match query b db2 s2 with
          | (.error e2, db3) => ⟨handleError e2 ("Failed to update task"), db3, log ++ [s1, s2]⟩
          | (.ok r2, db3) =>
            match r2.rows.head? with
            | some (.task t) => ⟨⟨200, mapTask t⟩, db3, log ++ [s1, s2]⟩
            | _ => ⟨⟨500, .jsonMessage jsUndefinedReadMsg⟩, db3, log ++ [s1, s2]⟩
      | _ => ⟨⟨404, .jsonMessage "Task not found"⟩, db2, log ++ [s1]⟩

/-- JS truthiness of `result.rowCount` in the delete handler: undefined and
0 are falsy. -/
def jsTruthyCount : Option Nat → Bool
  | none => false
  | some 0 => false
  | some (_ + 1) => true

/-- DELETE /api/users/:userId/tasks/:taskId (app.js lines 230-242): resolve
the user, run the owner-scoped DELETE, answer 404 when `result.rowCount` is
falsy, otherwise 204 with an empty body. -/
def deleteUserTask (b : Backend) (db : Db) (userId taskId : String) : HOut :=
  match ensureUser b db userId with
  | (.error e, db1, log) => ⟨handleError e ("Failed to delete task"), db1, log⟩
  | (.ok u, db1, log) =>
    let s := Stmt.deleteTask taskId u.id
    match query b db1 s with
    | (.error e, db2) => ⟨handleError e ("Failed to delete task"), db2, log ++ [s]⟩
    | (.ok r, db2) =>
      if jsTruthyCount r.rowCount then ⟨⟨204, .empty⟩, db2, log ++ [s]⟩
      else ⟨⟨404, .jsonMessage "Task not found"⟩, db2, log ++ [s]⟩

/-- Modelled from the spec: database/schema.sql is not under src/.  Per spec
section 4.2 it is a schema definition script; creating tables leaves row
data untouched. -/
def applySchemaSql (db : Db) : Db :=
  { db with tablesCreated := true }

/-- Modelled from the spec: database/seed.sql is not under src/.  Per spec
section 4.2 the seed is applied "only if rows are absent"; `seedUsers` and
`seedTasks` stand for its row content. -/
def applySeedSql (seedUsers : List UserRow) (seedTasks : List TaskRow) (db : Db) : Db :=
  if db.users.isEmpty && db.tasks.isEmpty then
    { db with users := seedUsers, tasks := seedTasks }
  else db

/-- db.js `bootstrapDatabase` (lines 93-123): on MySQL, two CREATE TABLE IF
NOT EXISTS statements (no row changes); on sqlite, apply the schema script
then the seed script. -/
def bootstrapDatabase (b : Backend) (seedUsers : List UserRow) (seedTasks : List TaskRow)
    (db : Db) : Db :=
  match b with
  | .mysql => { db with tablesCreated := true }
  | .sqlite => applySeedSql seedUsers seedTasks (applySchemaSql db)

/-! ## Helper lemmas about the data-access layer -/

theorem char_toNat_ofNat (n : Nat) (h : n.isValidChar) : (Char.ofNat n).toNat = n := by
  simp [Char.ofNat, dif_pos h, Char.ofNatAux, Char.toNat, UInt32.toNat]

theorem char_toLower_idem (c : Char) : c.toLower.toLower = c.toLower := by
  unfold Char.toLower
  by_cases h : c.toNat ≥ 65 ∧ c.toNat ≤ 90
  · rw [if_pos h]
    have hv : (c.toNat + 32).isValidChar := Or.inl (by omega)
    have ht : (Char.ofNat (c.toNat + 32)).toNat = c.toNat + 32 := char_toNat_ofNat _ hv
    rw [if_neg]
    rw [ht]
    omega
  · rw [if_neg h, if_neg h]

theorem jsToLower_idem (s : String) : jsToLower (jsToLower s) = jsToLower s := by
  simp only [jsToLower, List.map_map]
  congr 1
  apply List.map_congr_left
  intro a _
  exact char_toLower_idem a

theorem query_select (b : Backend) (db : Db) (s : Stmt)
    (h1 : usesNow s = false) (h2 : usesReturning s = false)
    (h3 : strStartsWith (jsToLower (jsTrim (stmtText s))) ("select") = true) :
    query b db s = (.ok ⟨selectRows b db s, some (selectRows b db s).length⟩, db) := by
  cases b <;> simp [query, h1, h2, h3]

theorem query_sqlite_write (db : Db) (s : Stmt)
    (h1 : usesNow s = false)
    (h3 : strStartsWith (jsToLower (jsTrim (stmtText s))) ("select") = false) :
    query .sqlite db s = (.ok ⟨[], some (writeEffect .sqlite db s).2⟩, (writeEffect .sqlite db s).1) := by
  simp [query, h1, h3]

theorem query_mysql_write (db : Db) (s : Stmt)
    (h2 : usesReturning s = false)
    (h3 : strStartsWith (jsToLower (jsTrim (stmtText s))) ("select") = false) :
    query .mysql db s = (.ok ⟨[], none⟩, (writeEffect .mysql db s).1) := by
  simp [query, h2, h3]

theorem query_sqlite_now (db : Db) (s : Stmt) (h : usesNow s = true) :
    query .sqlite db s = (.error sqliteNowError, db) := by
  simp [query, h]

theorem query_mysql_returning (db : Db) (s : Stmt) (h : usesReturning s = true) :
    query .mysql db s = (.error (mysqlParseError (stmtText s)), db) := by
  simp [query, h]

theorem query_selectUserById (b : Backend) (db : Db) (i : Int) :
    query b db (.selectUserById i) =
      (.ok ⟨selectRows b db (.selectUserById i), some (selectRows b db (.selectUserById i)).length⟩, db) :=
  query_select b db _ rfl rfl rfl

theorem query_selectUserIdByEmail (b : Backend) (db : Db) (e : String) :
    query b db (.selectUserIdByEmail e) =
      (.ok ⟨selectRows b db (.selectUserIdByEmail e), some (selectRows b db (.selectUserIdByEmail e)).length⟩, db) :=
  query_select b db _ rfl rfl rfl

theorem query_selectUserForLogin (b : Backend) (db : Db) (e : String) :
    query b db (.selectUserForLogin e) =
      (.ok ⟨selectRows b db (.selectUserForLogin e), some (selectRows b db (.selectUserForLogin e)).length⟩, db) :=
  query_select b db _ rfl rfl rfl

theorem query_selectTaskByIdAndUser (b : Backend) (db : Db) (tid : String) (uid : Nat) :
    query b db (.selectTaskByIdAndUser tid uid) =
      (.ok ⟨selectRows b db (.selectTaskByIdAndUser tid uid),
            some (selectRows b db (.selectTaskByIdAndUser tid uid)).length⟩, db) :=
  query_select b db _ rfl rfl rfl

theorem ensureUser_nan (b : Backend) (db : Db) (userId : String)
    (hp : parseInt10 userId = none) :
    ensureUser b db userId = (.error { message := "Invalid user id", status := some 400 }, db, []) := by
  simp [ensureUser, hp]

theorem ensureUser_found (b : Backend) (db : Db) (userId : String) (i : Int) (u : UserRow)
    (hp : parseInt10 userId = some i)
    (hu : (db.users.filter (fun v => (v.id : Int) == i)).head? = some u) :
    ensureUser b db userId = (.ok u, db, [Stmt.selectUserById i]) := by
  simp [ensureUser, hp, query_selectUserById, selectRows, List.head?_map, hu]

theorem query_selectUserByEmail (b : Backend) (db : Db) (e : String) :
    query b db (.selectUserByEmail e) =
      (.ok ⟨selectRows b db (.selectUserByEmail e), some (selectRows b db (.selectUserByEmail e)).length⟩, db) :=
  query_select b db _ rfl rfl rfl

theorem query_insertUserReturning_sqlite (db : Db) (n e : String) (h : Digest) :
    query .sqlite db (.insertUserReturning n e h) = (.error sqliteNowError, db) :=
  query_sqlite_now db _ rfl

theorem query_insertUserReturning_mysql (db : Db) (n e : String) (h : Digest) :
    query .mysql db (.insertUserReturning n e h) =
      (.error (mysqlParseError (stmtText (.insertUserReturning n e h))), db) :=
  query_mysql_returning db _ rfl

theorem query_insertUserPlain_mysql (db : Db) (n e : String) (h : Digest) :
    query .mysql db (.insertUserPlain n e h) =
      (.ok ⟨[], none⟩, (writeEffect .mysql db (.insertUserPlain n e h)).1) :=
  query_mysql_write db _ rfl rfl

/-- The normalized email a register request is processed under:
`(req.body.email || '').trim().toLowerCase()`. -/
def regEmail (body : RegisterBody) : String := jsToLower (jsTrim (body.email.getD ""))

/-- The storage invariant register maintains on the users table: stored
emails are already lowercase (register inserts only normalized emails) and
pairwise distinct.  Together these give at most one row per
case-insensitively-compared email. -/
def RegInv (db : Db) : Prop :=
  (∀ u ∈ db.users, jsToLower u.email = u.email) ∧
  db.users.Pairwise (fun u v => u.email ≠ v.email)

/-! ## Concrete fixtures -/

/-- An empty, unbootstrapped store. -/
def emptyDb : Db := { users := [], tasks := [] }

def annUser : UserRow := ⟨1, "Ann", "ann@x.com", ⟨0, "secret1"⟩, 0, 0⟩

def bobUser : UserRow := ⟨2, "Bob", "bob@x.com", ⟨1, "secret2"⟩, 0, 0⟩

/-- A task owned by Bob (user id 2). -/
def bobTask : TaskRow := ⟨1, 2, "Buy milk", false, 0, 0⟩

/-- Two registered users; one task owned by Bob. -/
def sampleDb : Db :=
  { users := [annUser, bobUser], tasks := [bobTask], nextUserId := 3, nextTaskId := 2 }

def annReg : RegisterBody :=
  { name := some "Ann", email := some "ann@x.com", password := some "secret1" }

/-! ## Claim theorems -/

/-- C2: the claim says both backends return the newly inserted row from
register and create-task, with a read-back fallback where the insert cannot
return it.  The code contradicts this: on the embedded (sqlite) backend the
INSERT statements call NOW(), which sqlite rejects, and the fallback only
fires on the MySQL error code ER_PARSE_ERROR, so register and create-task
answer 500 on sqlite; on MySQL the fallback read-back works and returns the
row.  This theorem evaluates the code at the failing inputs: register and
create-task answer 500 on sqlite (inserting nothing), while the identical
requests on MySQL answer 201 with the inserted row. -/
theorem insert_row_return_not_uniform_across_backends :
    (postAuthRegister .sqlite emptyDb annReg).resp.status = 500 ∧
    (postAuthRegister .sqlite emptyDb annReg).db.users = [] ∧
    (postAuthRegister .mysql emptyDb annReg).resp = ⟨201, .jsonUser 1 "Ann" "ann@x.com"⟩ ∧
    (postUserTasks .sqlite sampleDb "1" ⟨some "Write spec"⟩).resp.status = 500 ∧
    (postUserTasks .sqlite sampleDb "1" ⟨some "Write spec"⟩).db.tasks = sampleDb.tasks ∧
    (postUserTasks .mysql sampleDb "1" ⟨some "Write spec"⟩).resp =
      ⟨201, .jsonTask 2 1 "Write spec" false 0 0⟩ :=
  ⟨rfl, rfl, rfl, rfl, rfl, rfl⟩

/-- C3: the claim says every query result has a row list and a count equal
to the number of affected rows for INSERT/UPDATE/DELETE on either backend.
On the MySQL backend the driver returns a result-set header for writes, so
`rows.length` is undefined and the normalized `rowCount` is not the number
of affected rows.  Evaluated at a DELETE that removes one row: the store
loses the row (one row affected) yet `rowCount` is undefined rather than 1,
and in consequence the delete handler reports 404 for a delete that
succeeded. -/
theorem mysql_write_count_not_normalized :
    (query .mysql sampleDb (.deleteTask "1" 2)).1 = .ok ⟨[], none⟩ ∧
    (query .mysql sampleDb (.deleteTask "1" 2)).2.tasks = [] ∧
    sampleDb.tasks = [bobTask] ∧
    (deleteUserTask .mysql sampleDb "2" "1").resp.status = 404 ∧
    (deleteUserTask .mysql sampleDb "2" "1").db.tasks = [] :=
  ⟨rfl, rfl, rfl, rfl, rfl⟩

/-- C6: the claim says updating an owned task with `completed` alone keeps
the title, sets the flag, and refreshes the update timestamp.  The code
cannot perform any update: the UPDATE statement calls NOW() (unknown to
sqlite) and uses RETURNING (rejected by MySQL), so on both backends the
handler answers 500 and the stored task is completely unchanged.  Evaluated
at Bob updating his own task with `{completed: true}`. -/
theorem update_completed_only_fails_on_both_backends :
    (putUserTask .sqlite sampleDb "2" "1" { completed := some (.jbool true) }).resp.status = 500 ∧
    (putUserTask .sqlite sampleDb "2" "1" { completed := some (.jbool true) }).db = sampleDb ∧
    (putUserTask .mysql sampleDb "2" "1" { completed := some (.jbool true) }).resp.status = 500 ∧
    (putUserTask .mysql sampleDb "2" "1" { completed := some (.jbool true) }).db = sampleDb :=
  ⟨rfl, rfl, rfl, rfl⟩

/-- C9: the claim says error responses never contain SQL statement text.
The handlers forward the driver error message verbatim
(`res.json({message: error.message})`), and the MySQL parse error message
embeds the rejected statement text, so a failed update on the MySQL backend
sends the SQL statement to the client inside the 500 response body. -/
theorem error_response_embeds_sql_statement_text :
    (putUserTask .mysql sampleDb "2" "1" { completed := some (.jbool true) }).resp.status = 500 ∧
    (putUserTask .mysql sampleDb "2" "1" { completed := some (.jbool true) }).resp.body =
      .jsonMessage ("You have an error in your SQL syntax; check the manual that corresponds to your MySQL server version for the right syntax to use near "
        ++ stmtText (Stmt.updateTaskReturning "Buy milk" true "1" 2)) :=
  ⟨rfl, rfl⟩

/-- Counterexample to C1 as stated: DELETE (and PUT) on
/api/users/2/tasks/1abc against the MySQL backend.  No stored task has id
"1abc" — the only task's id prints as "1" — so the claim's "task does not
exist" case applies and promises 404 with the task table unchanged.  But
MySQL's string-to-number coercion makes the text '1abc' compare equal to
the integer id 1, so the DELETE removes Bob's task (the 404 it reports
comes from the separate rowCount bug, while the table *does* change) and
the PUT finds the task and answers 500 rather than 404. -/
theorem ownership_scoped_not_found_counterexample :
    (∀ t ∈ sampleDb.tasks, toString t.id ≠ "1abc") ∧
    sampleDb.tasks = [bobTask] ∧
    (deleteUserTask .mysql sampleDb "2" "1abc").db.tasks = [] ∧
    (putUserTask .mysql sampleDb "2" "1abc" { completed := some (.jbool true) }).resp.status = 500 :=
  ⟨by decide, rfl, rfl, rfl⟩

/-- C1 amended: for update and delete requests where the path user exists
but no stored task row matches the path task id and that user under the
backend's own id comparison (`taskIdMatches`: SQLite numeric affinity,
MySQL numeric-prefix coercion) — which for a numeric path task id is
exactly "the task does not exist or is owned by a different user" — the
handler answers 404 "Task not found" on either backend and the whole store,
in particular the task table with every field of any task held by another
owner, is unchanged. -/
theorem ownership_scoped_not_found_leaves_tasks_intact (b : Backend) (db : Db)
    (userId taskId : String) (ub : UpdateTaskBody) (i : Int) (u : UserRow)
    (hp : parseInt10 userId = some i)
    (hu : (db.users.filter (fun v => (v.id : Int) == i)).head? = some u)
    (ht : ∀ t ∈ db.tasks, taskIdMatches b taskId u.id t = false) :
    (putUserTask b db userId taskId ub).resp = ⟨404, .jsonMessage "Task not found"⟩ ∧
    (putUserTask b db userId taskId ub).db = db ∧
    (deleteUserTask b db userId taskId).resp = ⟨404, .jsonMessage "Task not found"⟩ ∧
    (deleteUserTask b db userId taskId).db = db := by
  have hfil : db.tasks.filter (taskIdMatches b taskId u.id) = [] := by
    rw [List.filter_eq_nil]
    intro t htm
    simp [ht t htm]
  have hkeep : db.tasks.filter (fun t => !taskIdMatches b taskId u.id t) = db.tasks := by
    rw [List.filter_eq_self]
    intro t htm
    simp [ht t htm]
  have hput : (putUserTask b db userId taskId ub).resp = ⟨404, .jsonMessage "Task not found"⟩ ∧
      (putUserTask b db userId taskId ub).db = db := by
    simp only [putUserTask, ensureUser_found b db userId i u hp hu,
      query_selectTaskByIdAndUser, selectRows, hfil, List.map_nil, List.head?_nil]
    simp
  have hdel : (deleteUserTask b db userId taskId).resp = ⟨404, .jsonMessage "Task not found"⟩ ∧
      (deleteUserTask b db userId taskId).db = db := by
    cases b with
    | sqlite =>
      simp only [deleteUserTask, ensureUser_found .sqlite db userId i u hp hu,
        query_sqlite_write db (.deleteTask taskId u.id) rfl rfl, writeEffect, hfil, hkeep,
        List.length_nil, jsTruthyCount]
      simp
    | mysql =>
      simp only [deleteUserTask, ensureUser_found .mysql db userId i u hp hu,
        query_mysql_write db (.deleteTask taskId u.id) rfl rfl, writeEffect, hkeep,
        jsTruthyCount]
      simp
  exact ⟨hput.1, hput.2, hdel.1, hdel.2⟩

/-- Witness for the amended C1: Ann (user 1) tries to update and delete
task 1, which is owned by Bob (user 2): both answer 404 and the store keeps
Bob's task. -/
theorem ownership_scoped_not_found_witness :
    parseInt10 "1" = some 1 ∧
    (sampleDb.users.filter (fun v => (v.id : Int) == 1)).head? = some annUser ∧
    (∀ t ∈ sampleDb.tasks, taskIdMatches .sqlite "1" annUser.id t = false) ∧
    (putUserTask .sqlite sampleDb "1" "1" { completed := some (.jbool true) }).resp =
      ⟨404, .jsonMessage "Task not found"⟩ ∧
    (deleteUserTask .sqlite sampleDb "1" "1").db = sampleDb := by
  refine ⟨rfl, rfl, by decide, ?_, ?_⟩
  · exact (ownership_scoped_not_found_leaves_tasks_intact .sqlite sampleDb "1" "1"
      { completed := some (.jbool true) } 1 annUser rfl rfl (by decide)).1
  · exact (ownership_scoped_not_found_leaves_tasks_intact .sqlite sampleDb "1" "1"
      { completed := some (.jbool true) } 1 annUser rfl rfl (by decide)).2.2.2

/-- C4: a login with an email matching no stored user and a login with a
stored email whose password fails verification both answer 401 with the
same body — equal `Body` values serialize to byte-identical JSON — so the
response does not reveal whether the email exists. -/
theorem login_failure_responses_indistinguishable (b : Backend) (db : Db)
    (e1 p1 e2 p2 : String) (u : UserRow)
    (he1 : jsToLower (jsTrim e1) ≠ "") (hp1 : p1 ≠ "")
    (he2 : jsToLower (jsTrim e2) ≠ "") (hp2 : p2 ≠ "")
    (habsent : db.users.filter (fun v => v.email == jsToLower (jsTrim e1)) = [])
    (hfound : (db.users.filter (fun v => v.email == jsToLower (jsTrim e2))).head? = some u)
    (hmismatch : comparePassword p2 u.password_hash = false) :
    (postAuthLogin b db ⟨some e1, some p1⟩).resp = ⟨401, .jsonMessage "Invalid credentials"⟩ ∧
    (postAuthLogin b db ⟨some e2, some p2⟩).resp = ⟨401, .jsonMessage "Invalid credentials"⟩ ∧
    (postAuthLogin b db ⟨some e1, some p1⟩).resp.body =
      (postAuthLogin b db ⟨some e2, some p2⟩).resp.body := by
  have h1 : (postAuthLogin b db ⟨some e1, some p1⟩).resp = ⟨401, .jsonMessage "Invalid credentials"⟩ := by
    simp only [postAuthLogin, Option.getD_some, query_selectUserForLogin, selectRows, habsent,
      List.map_nil, List.head?_nil]
    simp [he1, hp1]
  have h2 : (postAuthLogin b db ⟨some e2, some p2⟩).resp = ⟨401, .jsonMessage "Invalid credentials"⟩ := by
    simp only [postAuthLogin, Option.getD_some, query_selectUserForLogin, selectRows,
      List.head?_map, hfound, Option.map_some]
    simp [he2, hp2, hmismatch]
  refine ⟨h1, h2, ?_⟩
  rw [h1, h2]

/-- Witness for C4: unregistered zoe@x.com and Ann with a wrong password
both get the identical 401 response. -/
theorem login_failure_responses_indistinguishable_witness :
    sampleDb.users.filter (fun v => v.email == jsToLower (jsTrim "zoe@x.com")) = [] ∧
    (sampleDb.users.filter (fun v => v.email == jsToLower (jsTrim "ann@x.com"))).head? =
      some annUser ∧
    comparePassword "wrongpw" annUser.password_hash = false ∧
    (postAuthLogin .mysql sampleDb ⟨some "zoe@x.com", some "whatever"⟩).resp =
      ⟨401, .jsonMessage "Invalid credentials"⟩ ∧
    (postAuthLogin .mysql sampleDb ⟨some "ann@x.com", some "wrongpw"⟩).resp =
      ⟨401, .jsonMessage "Invalid credentials"⟩ := by
  refine ⟨rfl, rfl, rfl, ?_, ?_⟩
  · exact (login_failure_responses_indistinguishable .mysql sampleDb "zoe@x.com" "whatever"
      "ann@x.com" "wrongpw" annUser (by decide) (by decide) (by decide) (by decide)
      rfl rfl rfl).1
  · exact (login_failure_responses_indistinguishable .mysql sampleDb "zoe@x.com" "whatever"
      "ann@x.com" "wrongpw" annUser (by decide) (by decide) (by decide) (by decide)
      rfl rfl rfl).2.1

/-- C8: bootstrap is idempotent — running it again on any already
bootstrapped store is the identity, so all rows and row counts are
unchanged; and on the embedded backend the seed rows are applied only when
rows are absent: when rows are present, users and tasks are untouched.
The schema and seed scripts are not under src/ and are modelled from the
spec (see `applySchemaSql` / `applySeedSql`), quantifying over arbitrary
seed content. -/
theorem bootstrap_idempotent (b : Backend) (sU : List UserRow) (sT : List TaskRow) (db : Db) :
    bootstrapDatabase b sU sT (bootstrapDatabase b sU sT db) = bootstrapDatabase b sU sT db ∧
    ((db.users.isEmpty && db.tasks.isEmpty) = false →
      (bootstrapDatabase .sqlite sU sT db).users = db.users ∧
      (bootstrapDatabase .sqlite sU sT db).tasks = db.tasks) := by
  constructor
  · cases b with
    | mysql => rfl
    | sqlite =>
      simp only [bootstrapDatabase, applySchemaSql, applySeedSql]
      split_ifs <;> simp_all
  · intro h
    simp [bootstrapDatabase, applySchemaSql, applySeedSql, h]

/-- Witness for C8: a store that already has rows is left unchanged by a
further bootstrap, whatever the seed holds. -/
theorem bootstrap_idempotent_witness :
    (sampleDb.users.isEmpty && sampleDb.tasks.isEmpty) = false ∧
    (bootstrapDatabase .sqlite [annUser] [] sampleDb).users = sampleDb.users ∧
    bootstrapDatabase .sqlite [annUser] [] (bootstrapDatabase .sqlite [annUser] [] sampleDb) =
      bootstrapDatabase .sqlite [annUser] [] sampleDb := by
  refine ⟨rfl, ?_, ?_⟩
  · exact ((bootstrap_idempotent .sqlite [annUser] [] sampleDb).2 rfl).1
  · exact (bootstrap_idempotent .sqlite [annUser] [] sampleDb).1

/-- Counterexample to C7 as stated: PUT on Bob's own task with the
non-boolean `completed` value "yes" is not rejected with a 400 validation
error (the handler proceeds and ends in a 500 from the broken UPDATE
statement). -/
theorem nonboolean_completed_not_rejected :
    ¬ (putUserTask .sqlite sampleDb "2" "1" { completed := some (.jstr "yes") }).resp.status = 400 := by
  decide

/-- Shared analysis: an update request on an owned existing task that
supplies no title and no usable completed value reaches the UPDATE
statement, which fails on both backends (NOW() unknown to sqlite, RETURNING
rejected by MySQL), so the handler answers 500 and the store is unchanged. -/
theorem put_completed_absent_500 (b : Backend) (db : Db) (userId taskId : String)
    (i : Int) (u : UserRow) (cur : TaskRow)
    (hp : parseInt10 userId = some i)
    (hu : (db.users.filter (fun v => (v.id : Int) == i)).head? = some u)
    (hcur : (db.tasks.filter (taskIdMatches b taskId u.id)).head? = some cur) :
    (putUserTask b db userId taskId { title := none, completed := none }).resp.status = 500 ∧
    (putUserTask b db userId taskId { title := none, completed := none }).db = db := by
  simp only [putUserTask, ensureUser_found b db userId i u hp hu,
    query_selectTaskByIdAndUser, selectRows, List.head?_map, hcur, Option.map_some]
  cases b with
  | sqlite =>
    simp [query_sqlite_now db (.updateTaskReturning cur.title cur.completed taskId u.id) rfl,
      handleError, sqliteNowError]
  | mysql =>
    simp [query_mysql_returning db (.updateTaskReturning cur.title cur.completed taskId u.id) rfl,
      handleError, mysqlParseError]

/-- C7 amended: a supplied non-boolean `completed` is not rejected with 400;
the handler ignores it — the request behaves exactly as if `completed` were
omitted, so the stored flag is used — and the stored task is unchanged (the
attempted update itself fails with 500 on both backends). -/
theorem nonboolean_completed_treated_as_absent (b : Backend) (db : Db)
    (userId taskId : String) (j : Json) (hnb : ∀ v, j ≠ .jbool v)
    (i : Int) (u : UserRow) (cur : TaskRow)
    (hp : parseInt10 userId = some i)
    (hu : (db.users.filter (fun v => (v.id : Int) == i)).head? = some u)
    (hcur : (db.tasks.filter (taskIdMatches b taskId u.id)).head? = some cur) :
    putUserTask b db userId taskId { title := none, completed := some j } =
      putUserTask b db userId taskId { title := none, completed := none } ∧
    (putUserTask b db userId taskId { title := none, completed := some j }).resp.status = 500 ∧
    (putUserTask b db userId taskId { title := none, completed := some j }).db = db := by
  have heq : putUserTask b db userId taskId { title := none, completed := some j } =
      putUserTask b db userId taskId { title := none, completed := none } := by
    cases j with
    | jbool v => exact absurd rfl (hnb v)
    | jnull => rfl
    | jstr s => rfl
    | jnum n => rfl
  rw [heq]
  exact ⟨rfl, put_completed_absent_500 b db userId taskId i u cur hp hu hcur⟩

/-- Witness for the amended C7: Bob updates his own task with
`{completed: "yes"}`; the string is ignored and the request ends in 500
with the store unchanged. -/
theorem nonboolean_completed_treated_as_absent_witness :
    parseInt10 "2" = some 2 ∧
    (sampleDb.users.filter (fun v => (v.id : Int) == 2)).head? = some bobUser ∧
    (sampleDb.tasks.filter (taskIdMatches .sqlite "1" bobUser.id)).head? = some bobTask ∧
    (∀ v, Json.jstr "yes" ≠ Json.jbool v) ∧
    (putUserTask .sqlite sampleDb "2" "1" { title := none, completed := some (.jstr "yes") }).resp.status = 500 := by
  refine ⟨rfl, rfl, by decide, fun v => by simp, ?_⟩
  exact (nonboolean_completed_treated_as_absent .sqlite sampleDb "2" "1" (.jstr "yes")
    (fun v => by simp) 2 bobUser bobTask rfl rfl (by decide)).2.1

/-- A register request whose normalized email is already stored is answered
409 before any insert, leaving the store untouched (for a well-formed
request: non-empty name/email, password of length at least 6). -/
theorem register_duplicate_409 (b : Backend) (db : Db) (body : RegisterBody) (u : UserRow)
    (hu : u ∈ db.users) (he : u.email = regEmail body)
    (hname : jsTrim (body.name.getD "") ≠ "")
    (hemail : regEmail body ≠ "")
    (hlen : ¬ (body.password.getD "").length < 6)
    (hpw : body.password.getD "" ≠ "") :
    (postAuthRegister b db body).resp.status = 409 ∧
    (postAuthRegister b db body).db = db := by
  simp only [regEmail] at he hemail
  have hmem : u ∈ db.users.filter (fun v => v.email == jsToLower (jsTrim (body.email.getD ""))) := by
    rw [List.mem_filter]
    exact ⟨hu, by simp [he]⟩
  have hne : (db.users.filter (fun v => v.email == jsToLower (jsTrim (body.email.getD "")))).length ≠ 0 := by
    intro h0
    rw [List.length_eq_zero] at h0
    rw [h0] at hmem
    exact (List.not_mem_nil u) hmem
  simp only [postAuthRegister, query_selectUserIdByEmail, selectRows]
  simp [hname, hemail, hlen, hpw, List.length_map, hne]

/-- `RegInv` (lowercase stored emails plus exact distinctness) yields the
claim-level property: at most one user row per case-insensitively-compared
email. -/
theorem reginv_case_insensitive_unique (db : Db) (hinv : RegInv db) :
    db.users.Pairwise (fun u v => jsToLower u.email ≠ jsToLower v.email) := by
  refine List.Pairwise.imp_of_mem ?_ hinv.2
  intro a c ha hc hne
  rw [hinv.1 a ha, hinv.1 c hc]
  exact hne

/-- Register preserves `RegInv` on every branch: error and 4xx paths leave
the users table untouched; the only insert (the MySQL fallback) stores the
normalized — hence lowercase — email, and runs only after the duplicate
pre-check found no row with that email. -/
theorem register_preserves_inv (b : Backend) (db : Db) (body : RegisterBody)
    (hinv : RegInv db) : RegInv (postAuthRegister b db body).db := by
  simp only [postAuthRegister, query_selectUserIdByEmail, selectRows]
  split_ifs with h1 h2 h3
  · exact hinv
  · exact hinv
  · exact hinv
  · have hlen0 : (List.filter (fun v => v.email == jsToLower (jsTrim (body.email.getD ""))) db.users).length = 0 := by
      have h0 := not_not.mp h3
      rwa [List.length_map] at h0
    have hdup : List.filter (fun v => v.email == jsToLower (jsTrim (body.email.getD ""))) db.users = [] :=
      List.length_eq_zero.mp hlen0
    have hnone : ∀ a ∈ db.users, a.email ≠ jsToLower (jsTrim (body.email.getD "")) := by
      intro a ha
      have := List.filter_eq_nil.mp hdup a ha
      simpa using this
    cases b with
    | sqlite =>
      simp only [query_insertUserReturning_sqlite, sqliteNowError]
      norm_num
      exact hinv
    | mysql =>
      simp only [query_insertUserReturning_mysql, mysqlParseError]
      simp only [query_insertUserPlain_mysql, writeEffect]
      simp only [query_selectUserByEmail, selectRows]
      have hfind : List.find? (fun u => u.email == jsToLower (jsTrim (body.email.getD ""))) db.users = none := by
        rw [List.find?_eq_none]
        intro a ha
        simpa using hnone a ha
      norm_num [hfind]
      constructor
      · intro a ha
        rw [List.mem_append] at ha
        rcases ha with ha | ha
        · exact hinv.1 a ha
        · rw [List.mem_singleton] at ha
          subst ha
          exact jsToLower_idem _
      · rw [List.pairwise_append]
        refine ⟨hinv.2, List.pairwise_singleton _ _, ?_⟩
        intro a ha v hv
        rw [List.mem_singleton] at hv
        subst hv
        exact hnone a ha

/-- A register that answers 201 has stored a row carrying the request's
normalized email (this only happens on the MySQL backend, through the
fallback insert). -/
theorem register_201_inserts_email (b : Backend) (db : Db) (body : RegisterBody)
    (h201 : (postAuthRegister b db body).resp.status = 201) :
    ∃ u ∈ (postAuthRegister b db body).db.users, u.email = regEmail body := by
  simp only [regEmail]
  simp only [postAuthRegister, query_selectUserIdByEmail, selectRows] at h201 ⊢
  split_ifs at h201 ⊢ with h1 h2 h3
  · simp at h201
  · simp at h201
  · simp at h201
  · have hlen0 : (List.filter (fun v => v.email == jsToLower (jsTrim (body.email.getD ""))) db.users).length = 0 := by
      have h0 := not_not.mp h3
      rwa [List.length_map] at h0
    have hdup : List.filter (fun v => v.email == jsToLower (jsTrim (body.email.getD ""))) db.users = [] :=
      List.length_eq_zero.mp hlen0
    have hnone : ∀ a ∈ db.users, a.email ≠ jsToLower (jsTrim (body.email.getD "")) := by
      intro a ha
      have := List.filter_eq_nil.mp hdup a ha
      simpa using this
    cases b with
    | sqlite =>
      simp only [query_insertUserReturning_sqlite, sqliteNowError] at h201
      rw [if_neg (by decide)] at h201
      simp [handleError, sqliteNowError] at h201
    | mysql =>
      have hfind : List.find? (fun u => u.email == jsToLower (jsTrim (body.email.getD ""))) db.users = none := by
        rw [List.find?_eq_none]
        intro a ha
        simpa using hnone a ha
      simp only [query_insertUserReturning_mysql, mysqlParseError,
        query_insertUserPlain_mysql, writeEffect, query_selectUserByEmail, selectRows]
      norm_num [hfind]
      refine ⟨⟨db.nextUserId, jsTrim (body.name.getD ""), jsToLower (jsTrim (body.email.getD "")),
        ⟨db.saltSeed, body.password.getD ""⟩, db.now, db.now⟩, ?_, rfl⟩
      simp

/-- `RegInv` is preserved by any sequence of register operations. -/
theorem register_seq_preserves_inv (b : Backend) (bodies : List RegisterBody) (db : Db)
    (hinv : RegInv db) :
    RegInv (bodies.foldl (fun d body => (postAuthRegister b d body).db) db) := by
  induction bodies generalizing db with
  | nil => exact hinv
  | cons hd tl ih => exact ih _ (register_preserves_inv b db hd hinv)

/-- C5: (i) a register that succeeds with 201 stores a row with the
request's normalized email; (ii) a later well-formed register whose email
is equal up to letter case — hence with the same normalized email — is
answered 409 and changes nothing; (iii, iv) the users-table invariant
`RegInv` is preserved by each register and so by any sequence of registers;
(v) the invariant means at most one user row exists per
case-insensitively-compared email. -/
theorem register_email_ci_uniqueness :
    (∀ (b : Backend) (db : Db) (body : RegisterBody),
      (postAuthRegister b db body).resp.status = 201 →
      ∃ u ∈ (postAuthRegister b db body).db.users, u.email = regEmail body) ∧
    (∀ (b : Backend) (db : Db) (body : RegisterBody) (u : UserRow),
      u ∈ db.users → u.email = regEmail body →
      jsTrim (body.name.getD "") ≠ "" → regEmail body ≠ "" →
      ¬ (body.password.getD "").length < 6 → body.password.getD "" ≠ "" →
      (postAuthRegister b db body).resp.status = 409 ∧ (postAuthRegister b db body).db = db) ∧
    (∀ (b : Backend) (db : Db) (body : RegisterBody), RegInv db →
      RegInv (postAuthRegister b db body).db) ∧
    (∀ (b : Backend) (bodies : List RegisterBody) (db : Db), RegInv db →
      RegInv (bodies.foldl (fun d body => (postAuthRegister b d body).db) db)) ∧
    (∀ db : Db, RegInv db →
      db.users.Pairwise (fun u v => jsToLower u.email ≠ jsToLower v.email)) :=
  ⟨register_201_inserts_email, register_duplicate_409, register_preserves_inv,
   register_seq_preserves_inv, reginv_case_insensitive_unique⟩

/-- Witness for C5: after Ann registers (MySQL backend), a second register
with the case-variant email "Ann@X.com" is answered 409 and the store is
unchanged. -/
theorem register_email_ci_uniqueness_witness :
    annUser ∈ (postAuthRegister .mysql emptyDb annReg).db.users ∧
    annUser.email = regEmail { name := some "Ann2", email := some "Ann@X.com", password := some "secret2" } ∧
    (postAuthRegister .mysql (postAuthRegister .mysql emptyDb annReg).db
      { name := some "Ann2", email := some "Ann@X.com", password := some "secret2" }).resp.status = 409 ∧
    (postAuthRegister .mysql (postAuthRegister .mysql emptyDb annReg).db
      { name := some "Ann2", email := some "Ann@X.com", password := some "secret2" }).db =
      (postAuthRegister .mysql emptyDb annReg).db := by
  refine ⟨by decide, rfl, ?_, ?_⟩
  · exact (register_email_ci_uniqueness.2.1 .mysql (postAuthRegister .mysql emptyDb annReg).db
      { name := some "Ann2", email := some "Ann@X.com", password := some "secret2" } annUser
      (by decide) rfl (by decide) (by decide) (by decide) (by decide)).1
  · exact (register_email_ci_uniqueness.2.1 .mysql (postAuthRegister .mysql emptyDb annReg).db
      { name := some "Ann2", email := some "Ann@X.com", password := some "secret2" } annUser
      (by decide) rfl (by decide) (by decide) (by decide) (by decide)).2

/-- C10: a task-endpoint request whose path user id does not parse as an
integer (Number.parseInt yields NaN) is answered 400 with the message
"Invalid user id" by all four task endpoints, before any statement reaches
the data-access layer (empty query log) and with the store untouched. -/
theorem invalid_user_id_rejected_before_queries (b : Backend) (db : Db)
    (userId taskId : String) (cb : CreateTaskBody) (ub : UpdateTaskBody)
    (hp : parseInt10 userId = none) :
    getUserTasks b db userId = ⟨⟨400, .jsonMessage "Invalid user id"⟩, db, []⟩ ∧
    postUserTasks b db userId cb = ⟨⟨400, .jsonMessage "Invalid user id"⟩, db, []⟩ ∧
    putUserTask b db userId taskId ub = ⟨⟨400, .jsonMessage "Invalid user id"⟩, db, []⟩ ∧
    deleteUserTask b db userId taskId = ⟨⟨400, .jsonMessage "Invalid user id"⟩, db, []⟩ := by
  refine ⟨?_, ?_, ?_, ?_⟩ <;>
    simp [getUserTasks, postUserTasks, putUserTask, deleteUserTask,
      ensureUser_nan b db userId hp, handleError]

/-- Witness for C10 at the concrete non-numeric path id "abc". -/
theorem invalid_user_id_rejected_before_queries_witness :
    parseInt10 "abc" = none ∧
    getUserTasks .sqlite sampleDb "abc" = ⟨⟨400, .jsonMessage "Invalid user id"⟩, sampleDb, []⟩ :=
  ⟨rfl, (invalid_user_id_rejected_before_queries .sqlite sampleDb "abc" "1" {} {} rfl).1⟩

end TodoWatchlist
